import Mathlib

/-
Verification of the gadi-dhundo geospatial notification core against its
natural-language specification.

The embedding below translates, from the repository sources:
  - the SQL function get_users_in_range (migration files, spherical
    law-of-cosines distance over profiles),
  - the SQL function get_users_in_radius (first migration, ST_DWithin form),
  - the BEFORE INSERT OR UPDATE trigger update_report_location,
  - the reports / confirmations table constraints and row-level policies,
  - the client functions sendAlertsToUsers and handleSubmit
    (TheftReportDialog), loadReports (LiveTheftMap), the zod reportSchema
    and onSubmit (TheftReportForm), and the stolen-vehicle onSubmit payload.

Timestamps are modelled as integers (seconds); geographic coordinates and
distances as real numbers (the SQL computation is over double precision,
modelled here by its exact real semantics; the concrete instances proved
below are far from any float-rounding boundary). UUIDs are modelled as
naturals.
-/

open scoped Classical

/-- A PostGIS point: x is the longitude (ST_X), y is the latitude (ST_Y). -/
structure Point where
  x : ℝ
  y : ℝ

/-- ST_MakePoint(lon, lat) as used by the update_report_location trigger. -/
def ST_MakePoint (lon lat : ℝ) : Point := ⟨lon, lat⟩

/-- A row of public.profiles (columns used by the range queries; phone became
nullable in a later migration). -/
structure Profile where
  user_id : ℕ
  phone : Option String
  verified : Bool
  fcm_token : Option String
  location : Option Point

/-- radians(d) as in SQL: degrees to radians. -/
noncomputable def radians (d : ℝ) : ℝ := d * Real.pi / 180

/-- The distance expression inside get_users_in_range:
6371000 * acos(cos(radians(center_lat)) * cos(radians(ST_Y(loc))) *
cos(radians(ST_X(loc)) - radians(center_lon)) + sin(radians(center_lat)) *
sin(radians(ST_Y(loc)))). -/
noncomputable def rangeDistance (center_lat center_lon : ℝ) (loc : Point) : ℝ :=
  6371000 * Real.arccos
    (Real.cos (radians center_lat) * Real.cos (radians loc.y) *
       Real.cos (radians loc.x - radians center_lon) +
     Real.sin (radians center_lat) * Real.sin (radians loc.y))

/-- The SQL function get_users_in_range(center_lat, center_lon, radius_meters):
selects user_id, the distance cast to INTEGER (CAST rounds to the nearest
integer), and fcm_token, from profiles whose location is non-null, whose
user_id differs from auth.uid() (the caller, passed here as authUid), and
whose uncast distance is at most radius_meters. -/
noncomputable def get_users_in_range (profiles : List Profile) (authUid : ℕ)
    (center_lat center_lon : ℝ) (radius_meters : ℤ) :
    List (ℕ × ℤ × Option String) :=
  profiles.filterMap (fun p =>
    match p.location with
    | none => none
    | some loc =>
        if p.user_id ≠ authUid ∧
            rangeDistance center_lat center_lon loc ≤ (radius_meters : ℝ) then
          some (p.user_id, round (rangeDistance center_lat center_lon loc),
                p.fcm_token)
        else none)

/-- The SQL function get_users_in_radius(report_lat, report_lon, radius_meters)
from the first migration: selects user_id, phone, fcm_token from profiles
whose location is non-null, which are verified, and for which
ST_DWithin(location, makePoint(report_lon, report_lat), radius_meters) holds.
The geodesic distance used by ST_DWithin is a PostGIS builtin, kept abstract
here as the parameter gdist; ST_DWithin(a, b, r) is gdist a b ≤ r. -/
noncomputable def get_users_in_radius (gdist : Point → Point → ℝ)
    (profiles : List Profile) (report_lat report_lon : ℝ) (radius_meters : ℤ) :
    List (ℕ × Option String × Option String) :=
  profiles.filterMap (fun p =>
    match p.location with
    | none => none
    | some loc =>
        if p.verified = true ∧
            gdist loc (ST_MakePoint report_lon report_lat) ≤ (radius_meters : ℝ) then
          some (p.user_id, p.phone, p.fcm_token)
        else none)

/-- A row of public.reports. -/
structure ReportRow where
  id : ℕ
  user_id : ℕ
  category : String
  vehicle_no : String
  description : Option String
  photo_url : Option String
  lat : ℝ
  lon : ℝ
  location : Point
  radius_m : ℤ
  expiry_at : ℤ
  status : String
  created_at : ℤ

/-- The trigger function update_report_location, fired BEFORE INSERT OR UPDATE
on reports: NEW.location := ST_SetSRID(ST_MakePoint(NEW.lon, NEW.lat), 4326).
The SRID tag is constant and not modelled. -/
def update_report_location (new : ReportRow) : ReportRow :=
  { new with location := ST_MakePoint new.lon new.lat }

/-- The CHECK constraint on reports.status:
status IN ('pending', 'verified', 'false'). -/
def reportStatusCheck (s : String) : Bool :=
  s == "pending" || s == "verified" || s == "false"

/-- The error taxonomy of the spec, plus the check-constraint violation the
store raises. -/
inductive AppError where
  | validationError
  | authorizationError
  | conflictError
  | notFoundError
  | transientStoreError
  | checkViolationError
deriving Repr, DecidableEq

/-- Inserting a row into public.reports: the BEFORE INSERT trigger recomputes
location from lon/lat, then the status CHECK constraint and the RLS policy
"Users can create their own reports" (WITH CHECK auth.uid() = user_id) gate
the write. On success the triggered row is appended and returned; on failure
the table is unchanged. -/
def insertReportRow (authUid : ℕ) (store : List ReportRow) (row : ReportRow) :
    List ReportRow × Except AppError ReportRow :=
  let r := update_report_location row
  if reportStatusCheck r.status = false then (store, .error .checkViolationError)
  else if authUid ≠ r.user_id then (store, .error .authorizationError)
  else (store ++ [r], .ok r)

/-- Updating a row of public.reports: the BEFORE UPDATE trigger recomputes
location from the new lon/lat. -/
def updateReportRow (new : ReportRow) : ReportRow :=
  update_report_location new

/-- One element of the result set of get_users_in_range, as consumed by the
client: user_id, distance_meters, fcm_token. -/
abbrev RangeUser := ℕ × ℤ × Option String

/-- A row of public.notification_alerts (columns written by the fan-out;
alert_type, status, read_at and the timestamps keep their defaults). -/
structure NotificationAlert where
  report_id : ℕ
  recipient_user_id : ℕ
  sender_user_id : ℕ
  message : String
  distance_meters : ℤ
deriving Repr, DecidableEq

/-- The default alert message template of sendAlertsToUsers, interpolating the
vehicle number. -/
def defaultAlertMessage (vehicleNo : String) : String :=
  "🚨 THEFT ALERT: " ++ vehicleNo ++
    " stolen near your location. Check the live map for details."

/-- The alert object built for one user in range inside sendAlertsToUsers.
The JS expression is formData.message || default, so the empty string (the
form default) selects the template. -/
def mkAlert (reportId senderId : ℕ) (message vehicleNo : String)
    (u : RangeUser) : NotificationAlert :=
  { report_id := reportId
    recipient_user_id := u.1
    sender_user_id := senderId
    message := if message = "" then defaultAlertMessage vehicleNo else message
    distance_meters := u.2.1 }

/-- sendAlertsToUsers(reportId): calls get_users_in_range (outcome passed in
as rangeResult: an error from the rpc is caught and the function returns 0
with the alert table untouched), builds one alert per returned user, and if
the list is non-empty inserts them as one batch (a failed batch insert is
likewise caught, returning 0 and leaving the table untouched). Returns the
final alert table and the count handed back to handleSubmit. -/
def sendAlertsToUsers (rangeResult : Except AppError (List RangeUser))
    (insertOk : Bool) (reportId senderId : ℕ) (message vehicleNo : String)
    (alertTable : List NotificationAlert) : List NotificationAlert × ℕ :=
  match rangeResult with
  | .error _ => (alertTable, 0)
  | .ok users =>
      let alerts := users.map (mkAlert reportId senderId message vehicleNo)
      if alerts.length > 0 then
        if insertOk then (alertTable ++ alerts, alerts.length)
        else (alertTable, 0)
      else (alertTable, alerts.length)

/-- The persistent tables touched by the submission dialog. -/
structure AppState where
  reports : List ReportRow
  alerts : List NotificationAlert

/-- handleSubmit of TheftReportDialog, after its guards: insert the report
(reportInsert is the outcome of the reports insert; on error the whole
submission fails and nothing further runs), then call sendAlertsToUsers and
surface its count in the success toast. The fan-out outcome never turns the
submission into a failure. -/
def handleSubmit (senderId : ℕ) (vehicleNo message : String) (row : ReportRow)
    (reportInsert : Except AppError Unit)
    (rangeResult : Except AppError (List RangeUser)) (alertInsertOk : Bool)
    (st : AppState) : AppState × Except AppError ℕ :=
  match reportInsert with
  | .error e => (st, .error e)
  | .ok _ =>
      let st1 : AppState := { st with reports := st.reports ++ [row] }
      let fanout := sendAlertsToUsers rangeResult alertInsertOk row.id senderId
        message vehicleNo st1.alerts
      ({ st1 with alerts := fanout.1 }, .ok fanout.2)

/-- The RLS SELECT policy "Users can view all active reports":
USING (expiry_at > now()). -/
def activeReportsPolicy (reports : List ReportRow) (now : ℤ) : List ReportRow :=
  reports.filter (fun r => decide (now < r.expiry_at))

/-- loadReports of LiveTheftMap: select over the RLS-visible rows with
category = vehicle and expiry_at >= now. The order-by on created_at only
permutes the result and is not modelled. -/
def loadReports (reports : List ReportRow) (now : ℤ) : List ReportRow :=
  (activeReportsPolicy reports now).filter
    (fun r => decide (r.category = "vehicle") && decide (now ≤ r.expiry_at))

/-- A row of public.confirmations (the generated id and created_at are not
modelled). -/
structure Confirmation where
  report_id : ℕ
  user_id : ℕ
  type : String
deriving Repr, DecidableEq

/-- The CHECK constraint on confirmations.type. -/
def confirmationTypeCheck (t : String) : Bool :=
  t == "seen" || t == "false" || t == "call_police"

/-- Inserting a row into public.confirmations: gated by the type CHECK
constraint, the RLS policy WITH CHECK (auth.uid() = user_id), and the
UNIQUE(report_id, user_id) constraint, which raises a unique violation
(ConflictError in the taxonomy of the spec) when the pair already exists. -/
def insertConfirmation (authUid : ℕ) (table : List Confirmation)
    (c : Confirmation) : List Confirmation × Except AppError Unit :=
  if confirmationTypeCheck c.type = false then (table, .error .checkViolationError)
  else if authUid ≠ c.user_id then (table, .error .authorizationError)
  else if table.any (fun r => r.report_id == c.report_id && r.user_id == c.user_id) then
    (table, .error .conflictError)
  else (table ++ [c], .ok ())

/-- The data validated by the zod reportSchema of TheftReportForm. -/
structure ReportFormData where
  vehicleNo : String
  description : String
  radius : ℤ
  expiryHours : ℤ

/-- The zod reportSchema: vehicleNo min length 1, description min length 10,
radius between 500 and 5000, expiryHours between 1 and 24. -/
def reportSchema (d : ReportFormData) : Bool :=
  decide (1 ≤ d.vehicleNo.length) && decide (10 ≤ d.description.length) &&
  decide (500 ≤ d.radius) && decide (d.radius ≤ 5000) &&
  decide (1 ≤ d.expiryHours) && decide (d.expiryHours ≤ 24)

/-- The reports insert payload built by onSubmit of TheftReportForm: the
caller asserts user_id, supplies lat/lon, a client-computed location point
(overwritten by the trigger), radius, and expiry_at = now + expiryHours
hours. Category and status keep their column defaults. -/
def mkTheftReportRow (id userId : ℕ) (d : ReportFormData) (lat lon : ℝ)
    (photoUrl : Option String) (now : ℤ) : ReportRow :=
  { id := id
    user_id := userId
    category := "vehicle"
    vehicle_no := d.vehicleNo
    description := some d.description
    photo_url := photoUrl
    lat := lat
    lon := lon
    location := ST_MakePoint lon lat
    radius_m := d.radius
    expiry_at := now + d.expiryHours * 3600
    status := "pending"
    created_at := now }

/-- onSubmit of TheftReportForm, as gated by the zod resolver: an invalid
form never reaches the insert (ValidationError); a valid form inserts the
row, where the store may still reject it (AuthorizationError from RLS when
the caller is not the asserted owner). Returns the reports table and the
outcome. -/
def onSubmit (authUid : ℕ) (id userId : ℕ) (d : ReportFormData) (lat lon : ℝ)
    (photoUrl : Option String) (now : ℤ) (store : List ReportRow) :
    List ReportRow × Except AppError ReportRow :=
  if reportSchema d = false then (store, .error .validationError)
  else insertReportRow authUid store (mkTheftReportRow id userId d lat lon photoUrl now)

/-- The reports insert payload of the stolen-vehicle onSubmit path
(part_002): radius_m 5000, expiry 7 days, and status set to the literal
active, which is outside the status CHECK constraint. -/
def stolenVehicleReportData (id userId : ℕ) (vehicleNo descr : String)
    (lat lon : ℝ) (photoUrl : Option String) (now : ℤ) : ReportRow :=
  { id := id
    user_id := userId
    category := "vehicle"
    vehicle_no := vehicleNo
    description := some descr
    photo_url := photoUrl
    lat := lat
    lon := lon
    location := ST_MakePoint lon lat
    radius_m := 5000
    expiry_at := now + 7 * 24 * 3600
    status := "active"
    created_at := now }

/-- The single profile of the C1 scenario: stored location latitude 0,
longitude 0.009 degrees. -/
def profileEast : Profile :=
  { user_id := 1, phone := none, verified := true, fcm_token := none,
    location := some ⟨0.009, 0⟩ }

lemma eastDistEq : rangeDistance 0 0 ⟨0.009, 0⟩ = 6371000 * (0.009 * Real.pi / 180) := by
  have h0 : (0 : ℝ) ≤ radians 0.009 := by
    unfold radians
    positivity
  have hpi : radians 0.009 ≤ Real.pi := by
    unfold radians
    nlinarith [Real.pi_pos]
  have h1 : radians 0 = 0 := by simp [radians]
  simp only [rangeDistance, h1, Real.cos_zero, Real.sin_zero, one_mul,
    mul_zero, zero_mul, add_zero, sub_zero]
  rw [Real.arccos_cos h0 hpi]
  unfold radians
  ring

lemma eastDistGt1000 : (1000 : ℝ) < rangeDistance 0 0 ⟨0.009, 0⟩ := by
  rw [eastDistEq]
  have h := Real.pi_gt_d6
  nlinarith

lemma eastDistLe1001 : rangeDistance 0 0 ⟨0.009, 0⟩ ≤ (1001 : ℝ) := by
  rw [eastDistEq]
  have h := Real.pi_lt_d6
  nlinarith

lemma eastDistRound : round (rangeDistance 0 0 ⟨0.009, 0⟩) = 1001 := by
  rw [round_eq, eastDistEq, Int.floor_eq_iff]
  constructor
  · push_cast
    have h := Real.pi_gt_d6
    nlinarith
  · push_cast
    have h := Real.pi_lt_d6
    nlinarith

lemma gur_singleton_in (p : Profile) (loc : Point) (authUid : ℕ)
    (clat clon : ℝ) (r : ℤ) (hloc : p.location = some loc)
    (h1 : p.user_id ≠ authUid) (h2 : rangeDistance clat clon loc ≤ (r : ℝ)) :
    get_users_in_range [p] authUid clat clon r =
      [(p.user_id, round (rangeDistance clat clon loc), p.fcm_token)] := by
  unfold get_users_in_range
  simp [hloc, h1, h2]

lemma gur_singleton_out (p : Profile) (loc : Point) (authUid : ℕ)
    (clat clon : ℝ) (r : ℤ) (hloc : p.location = some loc)
    (h2 : ¬ rangeDistance clat clon loc ≤ (r : ℝ)) :
    get_users_in_range [p] authUid clat clon r = [] := by
  unfold get_users_in_range
  simp [hloc, h2]

lemma eval_east_1001 :
    get_users_in_range [profileEast] 0 0 0 1001 = [(1, 1001, (none : Option String))] := by
  have h := gur_singleton_in profileEast ⟨0.009, 0⟩ 0 0 0 1001 rfl
    (by decide) (by push_cast; exact eastDistLe1001)
  rw [h, eastDistRound]
  rfl

lemma eval_east_1000 : get_users_in_range [profileEast] 0 0 0 1000 = [] :=
  gur_singleton_out profileEast ⟨0.009, 0⟩ 0 0 0 1000 rfl
    (by push_cast; linarith [eastDistGt1000])

lemma eval_east_999 : get_users_in_range [profileEast] 0 0 0 999 = [] :=
  gur_singleton_out profileEast ⟨0.009, 0⟩ 0 0 0 999 rfl
    (by push_cast; linarith [eastDistGt1000])

/-- C1 counterexample: for center (0,0) and a single user stored at latitude
0, longitude 0.009 degrees, the range query with radius_meters = 1000 returns
the empty list, not that user: the spherical law-of-cosines distance is
6371000 * (0.009 * pi / 180), about 1000.75 m, which exceeds 1000. -/
theorem C1_range_1000_counterexample :
    get_users_in_range [profileEast] 0 0 0 1000 = [] :=
  eval_east_1000

/-- C1 (amended): for center (0,0) and a single user stored at latitude 0,
longitude 0.009 degrees, the computed great-circle distance is about
1000.75 m, so a call with radius_meters = 1001 returns that user with
distance_meters rounded to 1001, while calls with radius_meters = 1000 and
999 both return the empty list. -/
theorem C1_range_boundary :
    get_users_in_range [profileEast] 0 0 0 1001 = [(1, 1001, (none : Option String))]
    ∧ get_users_in_range [profileEast] 0 0 0 1000 = []
    ∧ get_users_in_range [profileEast] 0 0 0 999 = [] :=
  ⟨eval_east_1001, eval_east_1000, eval_east_999⟩

lemma insertReportRow_ok {authUid : ℕ} {store : List ReportRow}
    {row r : ReportRow}
    (h : (insertReportRow authUid store row).2 = Except.ok r) :
    r = update_report_location row := by
  unfold insertReportRow at h
  by_cases h1 : reportStatusCheck (update_report_location row).status = false
  · simp [h1] at h
  · by_cases h2 : authUid ≠ (update_report_location row).user_id
    · simp [h1, h2] at h
    · simp [h1, h2] at h
      exact h.symm

/-- A concrete report payload at lat 12.9, lon 77.6 whose client-supplied
location point (0, 0) disagrees with its lat/lon. -/
def row0 : ReportRow :=
  { id := 1, user_id := 1, category := "vehicle", vehicle_no := "KA01AB1234",
    description := none, photo_url := none, lat := 12.9, lon := 77.6,
    location := ⟨0, 0⟩, radius_m := 1000, expiry_at := 7200,
    status := "pending", created_at := 0 }

/-- C5: every row accepted by the reports insert path stores
location = ST_MakePoint(lon, lat) with lat/lon taken from the payload (the
client-supplied point is overwritten by the BEFORE INSERT trigger), the
BEFORE UPDATE trigger re-derives the point from the updated lat/lon the same
way, and in particular a payload with lat 12.9 and lon 77.6 and a divergent
client point is stored with point (77.6, 12.9). -/
theorem C5_geometry_derivation (authUid : ℕ) (store : List ReportRow)
    (row r : ReportRow) :
    ((insertReportRow authUid store row).2 = Except.ok r →
        r.location = ST_MakePoint row.lon row.lat ∧ r.lat = row.lat ∧
          r.lon = row.lon)
    ∧ (updateReportRow row).location = ST_MakePoint row.lon row.lat
    ∧ (update_report_location row0).location = ST_MakePoint 77.6 12.9 := by
  refine ⟨?_, rfl, rfl⟩
  intro h
  rw [insertReportRow_ok h]
  exact ⟨rfl, rfl, rfl⟩

theorem C5_geometry_derivation_witness :
    (update_report_location row0).location = ST_MakePoint row0.lon row0.lat
    ∧ (updateReportRow row0).location = ST_MakePoint 77.6 12.9 :=
  ⟨((C5_geometry_derivation 1 [] row0 (update_report_location row0)).1 rfl).1,
   (C5_geometry_derivation 1 [] row0 row0).2.2⟩

/-- A concrete active vehicle report: created at time 0, expiring 2 hours
(7200 s) later. -/
def rowT : ReportRow :=
  { id := 7, user_id := 3, category := "vehicle", vehicle_no := "MH12AB1234",
    description := none, photo_url := none, lat := 12.9, lon := 77.6,
    location := ⟨77.6, 12.9⟩, radius_m := 1000, expiry_at := 7200,
    status := "pending", created_at := 0 }

/-- C6: a report created at time T with a 2-hour expiry is in the active
listing (both under the RLS policy filtering expiry_at > now and in the
loadReports query of the live map) at T + 1h, and absent from both at
T + 3h; both read paths are pure filters of the stored rows by the current
time, flipping no stored flag. -/
theorem C6_expiry_visibility (reports : List ReportRow) (r : ReportRow) (T : ℤ)
    (hmem : r ∈ reports) (_hc : r.created_at = T)
    (he : r.expiry_at = T + 2 * 3600) (hcat : r.category = "vehicle") :
    (r ∈ activeReportsPolicy reports (T + 3600) ∧
       r ∈ loadReports reports (T + 3600)) ∧
    r ∉ activeReportsPolicy reports (T + 3 * 3600) ∧
    r ∉ loadReports reports (T + 3 * 3600) := by
  have h1 : r ∈ activeReportsPolicy reports (T + 3600) := by
    rw [activeReportsPolicy, List.mem_filter]
    refine ⟨hmem, ?_⟩
    rw [he]
    simp only [decide_eq_true_eq]
    omega
  have h3 : r ∉ activeReportsPolicy reports (T + 3 * 3600) := by
    intro h
    rw [activeReportsPolicy, List.mem_filter] at h
    rw [he] at h
    have h2 := h.2
    simp only [decide_eq_true_eq] at h2
    omega
  refine ⟨⟨h1, ?_⟩, h3, ?_⟩
  · rw [loadReports, List.mem_filter]
    refine ⟨h1, ?_⟩
    rw [he, hcat]
    simp only [Bool.and_eq_true, decide_eq_true_eq]
    exact ⟨by trivial, by omega⟩
  · intro h
    rw [loadReports, List.mem_filter] at h
    exact h3 h.1

theorem C6_expiry_visibility_witness :
    (rowT ∈ activeReportsPolicy [rowT] (0 + 3600) ∧
       rowT ∈ loadReports [rowT] (0 + 3600)) ∧
    rowT ∉ activeReportsPolicy [rowT] (0 + 3 * 3600) ∧
    rowT ∉ loadReports [rowT] (0 + 3 * 3600) :=
  C6_expiry_visibility [rowT] rowT 0 (List.mem_singleton.mpr rfl) rfl rfl rfl

/-- C8: when a (report, user) pair is not yet present, inserting a "seen"
confirmation succeeds, and a second "seen" confirmation for the same pair
then fails with ConflictError (the UNIQUE(report_id, user_id) violation),
leaving the table unchanged with exactly one row for that pair; the guard is
the uniqueness check of the store insert, with no application code involved. -/
theorem C8_confirmation_uniqueness (table : List Confirmation)
    (c c' : Confirmation)
    (hfresh : table.any
      (fun r => r.report_id == c.report_id && r.user_id == c.user_id) = false)
    (htype : c.type = "seen") (htype' : c'.type = "seen")
    (hrep : c'.report_id = c.report_id) (husr : c'.user_id = c.user_id) :
    insertConfirmation c.user_id table c = (table ++ [c], Except.ok ())
    ∧ (insertConfirmation c'.user_id (table ++ [c]) c').2
        = Except.error AppError.conflictError
    ∧ (insertConfirmation c'.user_id (table ++ [c]) c').1 = table ++ [c]
    ∧ ((table ++ [c]).filter
        (fun r => r.report_id == c.report_id && r.user_id == c.user_id)).length
      = 1 := by
  have htc : confirmationTypeCheck c.type = true := by
    rw [htype]; rfl
  have htc' : confirmationTypeCheck c'.type = true := by
    rw [htype']; rfl
  have hpair : ((table ++ [c]).any
      (fun r => r.report_id == c'.report_id && r.user_id == c'.user_id)) = true := by
    rw [List.any_append]
    apply Bool.or_eq_true_iff.mpr
    right
    simp [hrep, husr]
  have hfilter : (table.filter
      (fun r => r.report_id == c.report_id && r.user_id == c.user_id)) = [] := by
    rw [List.filter_eq_nil_iff]
    intro a ha
    have := List.any_eq_false.mp hfresh a ha
    simpa using this
  refine ⟨?_, ?_, ?_, ?_⟩
  · simp [insertConfirmation, htc, hfresh]
  · simp [insertConfirmation, htc', hpair]
  · simp [insertConfirmation, htc', hpair]
  · rw [List.filter_append, hfilter]
    simp

/-- The confirmation inserted in the C8 witness scenario. -/
def conf0 : Confirmation := { report_id := 10, user_id := 20, type := "seen" }

theorem C8_confirmation_uniqueness_witness :
    insertConfirmation conf0.user_id ([] : List Confirmation) conf0
      = (([] : List Confirmation) ++ [conf0], Except.ok ())
    ∧ (insertConfirmation conf0.user_id (([] : List Confirmation) ++ [conf0]) conf0).2
        = Except.error AppError.conflictError
    ∧ (insertConfirmation conf0.user_id (([] : List Confirmation) ++ [conf0]) conf0).1
        = ([] : List Confirmation) ++ [conf0]
    ∧ ((([] : List Confirmation) ++ [conf0]).filter
        (fun r => r.report_id == conf0.report_id && r.user_id == conf0.user_id)).length
      = 1 :=
  C8_confirmation_uniqueness [] conf0 conf0 rfl rfl rfl rfl rfl

/-- C9: submission through the validated form fails with ValidationError when
the radius is outside 500 to 5000 meters or the vehicle number is empty, and
fails with AuthorizationError when the caller is not the asserted owning
user; in every such case the reports table is unchanged. -/
theorem C9_submission_errors (authUid id userId : ℕ) (d : ReportFormData)
    (lat lon : ℝ) (photoUrl : Option String) (now : ℤ)
    (store : List ReportRow) :
    ((d.radius < 500 ∨ 5000 < d.radius ∨ d.vehicleNo = "") →
        onSubmit authUid id userId d lat lon photoUrl now store
          = (store, Except.error AppError.validationError))
    ∧ (reportSchema d = true → authUid ≠ userId →
        onSubmit authUid id userId d lat lon photoUrl now store
          = (store, Except.error AppError.authorizationError)) := by
  constructor
  · intro h
    have hfail : reportSchema d = false := by
      rcases h with h | h | h
      · have : decide (500 ≤ d.radius) = false := by
          simp only [decide_eq_false_iff_not, not_le]
          omega
        simp [reportSchema, this]
      · have : decide (d.radius ≤ 5000) = false := by
          simp only [decide_eq_false_iff_not, not_le]
          omega
        simp [reportSchema, this]
      · have : decide (1 ≤ d.vehicleNo.length) = false := by
          rw [h]
          rfl
        simp [reportSchema, this]
    simp [onSubmit, hfail]
  · intro hv hne
    have hne' : authUid ≠ (update_report_location
        (mkTheftReportRow id userId d lat lon photoUrl now)).user_id := hne
    simp [onSubmit, hv, insertReportRow, hne']
    rfl

/-- The form data of the C9 witness: radius 100 is below the 500 m bound. -/
def badRadiusForm : ReportFormData :=
  { vehicleNo := "MH12AB1234", description := "silver hatchback stolen",
    radius := 100, expiryHours := 2 }

/-- The form data of the C9 witness authorization case: valid per the schema. -/
def okForm : ReportFormData :=
  { vehicleNo := "MH12AB1234", description := "silver hatchback stolen",
    radius := 1000, expiryHours := 2 }

theorem C9_submission_errors_witness :
    onSubmit 4 9 4 badRadiusForm 12.9 77.6 none 0 []
      = ([], Except.error AppError.validationError)
    ∧ onSubmit 5 9 6 okForm 12.9 77.6 none 0 []
      = ([], Except.error AppError.authorizationError) :=
  ⟨(C9_submission_errors 4 9 4 badRadiusForm 12.9 77.6 none 0 []).1
      (Or.inl (by decide)),
   (C9_submission_errors 5 9 6 okForm 12.9 77.6 none 0 []).2
      (by decide) (by decide)⟩

/-- C10: every row accepted into the reports table has status among pending,
verified and false (the payload of the validated form defaults to pending),
and the stolen-vehicle submission payload, which carries status = active, is
always rejected by the status CHECK constraint with the table unchanged, so
that path never persists a report. -/
theorem C10_status_check_constraint (authUid : ℕ) (store : List ReportRow)
    (row r : ReportRow) :
    ((insertReportRow authUid store row).2 = Except.ok r →
        (r.status = "pending" ∨ r.status = "verified" ∨ r.status = "false"))
    ∧ (∀ (id userId : ℕ) (vno descr : String) (lat lon : ℝ)
        (photoUrl : Option String) (now : ℤ),
        insertReportRow userId store
            (stolenVehicleReportData id userId vno descr lat lon photoUrl now)
          = (store, Except.error AppError.checkViolationError))
    ∧ (∀ (id userId : ℕ) (d : ReportFormData) (lat lon : ℝ)
        (photoUrl : Option String) (now : ℤ),
        (mkTheftReportRow id userId d lat lon photoUrl now).status = "pending") := by
  refine ⟨?_, ?_, fun _ _ _ _ _ _ _ => rfl⟩
  · intro h
    have hok : reportStatusCheck (update_report_location row).status ≠ false := by
      intro hbad
      rw [insertReportRow] at h
      simp only [hbad] at h
      simp at h
    rw [insertReportRow_ok h]
    have hck : reportStatusCheck (update_report_location row).status = true :=
      eq_true_of_ne_false hok
    have := by simpa [reportStatusCheck] using hck
    tauto
  · intro id userId vno descr lat lon photoUrl now
    simp [insertReportRow, stolenVehicleReportData, update_report_location,
      reportStatusCheck]

theorem C10_status_check_constraint_witness :
    ((update_report_location row0).status = "pending" ∨
       (update_report_location row0).status = "verified" ∨
       (update_report_location row0).status = "false")
    ∧ insertReportRow 1 [] (stolenVehicleReportData 5 1 "MH12AB1234" "gray" 12.9 77.6 none 0)
        = ([], Except.error AppError.checkViolationError) :=
  ⟨(C10_status_check_constraint 1 [] row0 (update_report_location row0)).1 rfl,
   (C10_status_check_constraint 1 [] row0 row0).2.1 5 1 "MH12AB1234" "gray"
      12.9 77.6 none 0⟩

/-- C7: once the report insert has succeeded, the submission never fails:
the committed report stays in the reports table whatever the fan-out does,
the caller gets back a notified-user count, and that count is the
non-exceptional value 0 whenever the range query errors, the batch insert of
alerts fails, or the range query returns no users. -/
theorem C7_fanout_nonfatal (senderId : ℕ) (vehicleNo message : String)
    (row : ReportRow) (rangeResult : Except AppError (List RangeUser))
    (alertInsertOk : Bool) (st : AppState) :
    row ∈ (handleSubmit senderId vehicleNo message row (Except.ok ())
        rangeResult alertInsertOk st).1.reports
    ∧ (∃ n, (handleSubmit senderId vehicleNo message row (Except.ok ())
        rangeResult alertInsertOk st).2 = Except.ok n)
    ∧ (∀ e, rangeResult = Except.error e →
        (handleSubmit senderId vehicleNo message row (Except.ok ())
          rangeResult alertInsertOk st).2 = Except.ok 0)
    ∧ (alertInsertOk = false →
        (handleSubmit senderId vehicleNo message row (Except.ok ())
          rangeResult alertInsertOk st).2 = Except.ok 0)
    ∧ (rangeResult = Except.ok [] →
        (handleSubmit senderId vehicleNo message row (Except.ok ())
          rangeResult alertInsertOk st).2 = Except.ok 0) := by
  refine ⟨?_, ⟨_, rfl⟩, ?_, ?_, ?_⟩
  · simp [handleSubmit]
  · intro e he
    subst he
    simp [handleSubmit, sendAlertsToUsers]
  · intro hins
    subst hins
    cases rangeResult with
    | error e => simp [handleSubmit, sendAlertsToUsers]
    | ok users =>
        simp only [handleSubmit, sendAlertsToUsers, List.length_map]
        by_cases hlen : 0 < users.length
        · simp [hlen]
        · have h0 : users.length = 0 := by omega
          simp [hlen, h0]
  · intro hr
    subst hr
    simp [handleSubmit, sendAlertsToUsers]

theorem C7_fanout_nonfatal_witness :
    rowT ∈ (handleSubmit 3 "MH12AB1234" "" rowT (Except.ok ())
        (Except.error AppError.transientStoreError) true ⟨[], []⟩).1.reports
    ∧ (handleSubmit 3 "MH12AB1234" "" rowT (Except.ok ())
        (Except.error AppError.transientStoreError) true ⟨[], []⟩).2
      = Except.ok 0 :=
  ⟨(C7_fanout_nonfatal 3 "MH12AB1234" "" rowT
      (Except.error AppError.transientStoreError) true ⟨[], []⟩).1,
   (C7_fanout_nonfatal 3 "MH12AB1234" "" rowT
      (Except.error AppError.transientStoreError) true ⟨[], []⟩).2.2.1
      AppError.transientStoreError rfl⟩

lemma gur_mem_inv {profiles : List Profile} {authUid : ℕ} {clat clon : ℝ}
    {r : ℤ} {t : RangeUser}
    (ht : t ∈ get_users_in_range profiles authUid clat clon r) :
    ∃ p ∈ profiles, ∃ loc, p.location = some loc ∧ p.user_id ≠ authUid ∧
      rangeDistance clat clon loc ≤ (r : ℝ) ∧
      t = (p.user_id, round (rangeDistance clat clon loc), p.fcm_token) := by
  rw [get_users_in_range, List.mem_filterMap] at ht
  obtain ⟨p, hp, hfp⟩ := ht
  cases hl : p.location with
  | none =>
      simp only [hl] at hfp
      exact Option.noConfusion hfp
  | some loc =>
      simp only [hl] at hfp
      split_ifs at hfp with hc
      · simp only [Option.some.injEq] at hfp
        exact ⟨p, hp, loc, hl, hc.1, hc.2, hfp.symm⟩

lemma gradius_mem_inv {gdist : Point → Point → ℝ} {profiles : List Profile}
    {rlat rlon : ℝ} {r : ℤ} {t : ℕ × Option String × Option String}
    (ht : t ∈ get_users_in_radius gdist profiles rlat rlon r) :
    ∃ p ∈ profiles, ∃ loc, p.location = some loc ∧
      t = (p.user_id, p.phone, p.fcm_token) := by
  rw [get_users_in_radius, List.mem_filterMap] at ht
  obtain ⟨p, hp, hfp⟩ := ht
  cases hl : p.location with
  | none =>
      simp only [hl] at hfp
      exact Option.noConfusion hfp
  | some loc =>
      simp only [hl] at hfp
      split_ifs at hfp with hc
      · simp only [Option.some.injEq] at hfp
        exact ⟨p, hp, loc, hl, hfp.symm⟩

lemma gur_map_fst_sublist (profiles : List Profile) (authUid : ℕ)
    (clat clon : ℝ) (r : ℤ) :
    ((get_users_in_range profiles authUid clat clon r).map Prod.fst).Sublist
      (profiles.map Profile.user_id) := by
  induction profiles with
  | nil => simp [get_users_in_range]
  | cons p l ih =>
      rw [get_users_in_range] at ih ⊢
      rw [List.filterMap_cons, List.map_cons]
      cases hl : p.location with
      | none =>
          simp only
          exact ih.cons _
      | some loc =>
          simp only
          by_cases hc : p.user_id ≠ authUid ∧
              rangeDistance clat clon loc ≤ (r : ℝ)
          · rw [if_pos hc, List.map_cons]
            exact ih.cons₂ _
          · rw [if_neg hc]
            exact ih.cons _

/-- C3: the caller of the range query (auth.uid(), which during fan-out is
the report owner) never appears in the returned user set, and consequently
no alert built by the fan-out has the owner as its recipient. -/
theorem C3_self_exclusion (profiles : List Profile) (owner : ℕ)
    (clat clon : ℝ) (r : ℤ) (reportId : ℕ) (message vehicleNo : String) :
    (∀ u ∈ get_users_in_range profiles owner clat clon r, u.1 ≠ owner)
    ∧ (∀ a ∈ (get_users_in_range profiles owner clat clon r).map
          (mkAlert reportId owner message vehicleNo),
        a.recipient_user_id ≠ owner) := by
  have hfst : ∀ u ∈ get_users_in_range profiles owner clat clon r,
      u.1 ≠ owner := by
    intro u hu
    obtain ⟨p, _, loc, _, hne, _, ht⟩ := gur_mem_inv hu
    rw [ht]
    exact hne
  refine ⟨hfst, ?_⟩
  intro a ha
  rw [List.mem_map] at ha
  obtain ⟨u, hu, hau⟩ := ha
  rw [← hau]
  exact hfst u hu

theorem C3_self_exclusion_witness :
    ((1 : ℕ), (1001 : ℤ), (none : Option String)).1 ≠ 0
    ∧ (mkAlert 99 0 "" "MH12AB1234"
        ((1 : ℕ), (1001 : ℤ), (none : Option String))).recipient_user_id ≠ 0 :=
  ⟨(C3_self_exclusion [profileEast] 0 0 0 1001 99 "" "MH12AB1234").1
      (1, 1001, none) (by rw [eval_east_1001]; exact List.mem_singleton.mpr rfl),
   (C3_self_exclusion [profileEast] 0 0 0 1001 99 "" "MH12AB1234").2
      (mkAlert 99 0 "" "MH12AB1234" (1, 1001, none))
      (by rw [eval_east_1001]
          exact List.mem_map_of_mem _ (List.mem_singleton.mpr rfl))⟩

/-- C4: a profile whose stored location is null is never part of the result
of either range query, for every center and radius (and, for
get_users_in_radius, every geodesic distance function). -/
theorem C4_null_location_exclusion (profiles : List Profile) (p : Profile)
    (authUid : ℕ) (clat clon : ℝ) (r : ℤ) (gdist : Point → Point → ℝ)
    (hnd : (profiles.map Profile.user_id).Nodup)
    (hp : p ∈ profiles) (hloc : p.location = none) :
    p.user_id ∉ (get_users_in_range profiles authUid clat clon r).map Prod.fst
    ∧ p.user_id ∉ (get_users_in_radius gdist profiles clat clon r).map Prod.fst := by
  constructor
  · intro h
    rw [List.mem_map] at h
    obtain ⟨u, hu, hfst⟩ := h
    obtain ⟨q, hq, loc, hql, _, _, hu_eq⟩ := gur_mem_inv hu
    have hqp : q = p := by
      apply List.inj_on_of_nodup_map hnd hq hp
      rw [← hfst, hu_eq]
    rw [hqp, hloc] at hql
    exact Option.noConfusion hql
  · intro h
    rw [List.mem_map] at h
    obtain ⟨u, hu, hfst⟩ := h
    obtain ⟨q, hq, loc, hql, hu_eq⟩ := gradius_mem_inv hu
    have hqp : q = p := by
      apply List.inj_on_of_nodup_map hnd hq hp
      rw [← hfst, hu_eq]
    rw [hqp, hloc] at hql
    exact Option.noConfusion hql

/-- The profile with a null stored location used by the C4 witness. -/
def profileNull : Profile :=
  { user_id := 2, phone := none, verified := true, fcm_token := none,
    location := none }

theorem C4_null_location_exclusion_witness :
    profileNull.user_id ∉
      (get_users_in_range [profileNull] 0 0 0 5000).map Prod.fst
    ∧ profileNull.user_id ∉
      (get_users_in_radius (fun _ _ => 0) [profileNull] 0 0 5000).map Prod.fst :=
  C4_null_location_exclusion [profileNull] profileNull 0 0 0 5000
    (fun _ _ => 0) (by simp) (List.mem_singleton.mpr rfl) rfl

/-- C2: with distinct profile user ids (profiles.user_id is UNIQUE), the
alerts built by the fan-out for one report have pairwise distinct
recipients, so no user gets more than one alert per report; each alert
references the report id, carries sender = report owner, a recipient and
distance taken from one row of the range query result, and the custom
message when one was supplied (otherwise the default template interpolating
the vehicle number); and a successful sendAlertsToUsers persists exactly
this list as a single batch append, returning its length. -/
theorem C2_fanout_batch (profiles : List Profile) (owner : ℕ)
    (clat clon : ℝ) (r : ℤ) (reportId : ℕ) (message vehicleNo : String)
    (alertTable : List NotificationAlert)
    (hnd : (profiles.map Profile.user_id).Nodup) :
    (((get_users_in_range profiles owner clat clon r).map
        (mkAlert reportId owner message vehicleNo)).map
          NotificationAlert.recipient_user_id).Nodup
    ∧ (∀ a ∈ (get_users_in_range profiles owner clat clon r).map
          (mkAlert reportId owner message vehicleNo),
        a.report_id = reportId ∧ a.sender_user_id = owner ∧
        (∃ u ∈ get_users_in_range profiles owner clat clon r,
            a.recipient_user_id = u.1 ∧ a.distance_meters = u.2.1) ∧
        a.message = (if message = "" then defaultAlertMessage vehicleNo
          else message))
    ∧ sendAlertsToUsers (Except.ok (get_users_in_range profiles owner clat clon r))
        true reportId owner message vehicleNo alertTable
      = (alertTable ++ (get_users_in_range profiles owner clat clon r).map
            (mkAlert reportId owner message vehicleNo),
         ((get_users_in_range profiles owner clat clon r).map
            (mkAlert reportId owner message vehicleNo)).length) := by
  refine ⟨?_, ?_, ?_⟩
  · have hmap : ((get_users_in_range profiles owner clat clon r).map
        (mkAlert reportId owner message vehicleNo)).map
          NotificationAlert.recipient_user_id
        = (get_users_in_range profiles owner clat clon r).map Prod.fst := by
      rw [List.map_map]
      rfl
    rw [hmap]
    exact (gur_map_fst_sublist profiles owner clat clon r).nodup hnd
  · intro a ha
    rw [List.mem_map] at ha
    obtain ⟨u, hu, hau⟩ := ha
    subst hau
    exact ⟨rfl, rfl, ⟨u, hu, rfl, rfl⟩, rfl⟩
  · rw [sendAlertsToUsers]
    by_cases hlen : 0 < ((get_users_in_range profiles owner clat clon r).map
        (mkAlert reportId owner message vehicleNo)).length
    · simp [hlen]
    · have h0 : (get_users_in_range profiles owner clat clon r).map
          (mkAlert reportId owner message vehicleNo) = [] := by
        rw [← List.length_eq_zero]
        omega
      simp [h0]

theorem C2_fanout_batch_witness :
    (([profileEast].map Profile.user_id).Nodup)
    ∧ (((get_users_in_range [profileEast] 0 0 0 1001).map
        (mkAlert 99 0 "" "MH12AB1234")).map
          NotificationAlert.recipient_user_id).Nodup
    ∧ sendAlertsToUsers (Except.ok (get_users_in_range [profileEast] 0 0 0 1001))
        true 99 0 "" "MH12AB1234" []
      = ([] ++ (get_users_in_range [profileEast] 0 0 0 1001).map
            (mkAlert 99 0 "" "MH12AB1234"),
         ((get_users_in_range [profileEast] 0 0 0 1001).map
            (mkAlert 99 0 "" "MH12AB1234")).length) :=
  ⟨by simp [profileEast],
   (C2_fanout_batch [profileEast] 0 0 0 1001 99 "" "MH12AB1234" []
      (by simp [profileEast])).1,
   (C2_fanout_batch [profileEast] 0 0 0 1001 99 "" "MH12AB1234" []
      (by simp [profileEast])).2.2⟩
